import Mathlib

/-!
Verification of the ParkSphere ingestion pipeline (`src/parksphere/server/ingest/`).

Shallow embedding: the Python ingestion scripts are translated into executable
Lean definitions.  Network responses become explicit parameters (an
`Except Unit _` or `Except String _` models a request that may raise), the
sqlite catalog becomes an explicit state record, `time.sleep` and HTTP calls
become events of a trace, the ambient numpy global RNG becomes an explicit
stream parameter, and numpy `uint8` arithmetic becomes `Nat` arithmetic
modulo 256.  Exact rationals stand in for Python floats where the reasoning
only involves comparisons and ring operations on representable values.
-/

namespace ParkSphere

/-! ## Catalog model (fetch_assets_mvp.py)

The sqlite schema from `init_database` (lines 51-93): a `parks` table keyed by
the integer primary key `id`, and an `images` table with an autoincrement
primary key — every executed `INSERT INTO images` adds a fresh row. -/

/-- One row of the `images` table as inserted by `save_park_data`
(fetch_assets_mvp.py lines 307-322): park id, type tag and remote url
(the remaining columns do not affect row counts). -/
structure ImageRow where
  park_id : Nat
  imgType : String
  url : String
deriving DecidableEq

/-- The catalog state: the park ids present in the `parks` table (primary key
column) and the list of `images` rows in insertion order. -/
structure ParksDB where
  parks : List Nat
  images : List ImageRow
deriving DecidableEq

/-- The empty catalog produced by `init_database`. -/
def emptyDB : ParksDB := ⟨[], []⟩

/-- `INSERT OR REPLACE INTO parks` keyed by the primary key `id`
(fetch_assets_mvp.py lines 278-296): when a row with this id exists it is
replaced (same id set), otherwise a new row is inserted. -/
def upsertPark (db : ParksDB) (parkId : Nat) : ParksDB :=
  if parkId ∈ db.parks then db else { db with parks := db.parks ++ [parkId] }

/-- `save_park_data` (fetch_assets_mvp.py lines 271-325): on one sqlite
connection, upsert the park row, then for each Unsplash photo whose download
and processing succeeded execute a plain `INSERT INTO images` — there is no
conditional insert and no deduplication key — then `commit`.
`processedUrls` lists the urls of the successfully processed photos. -/
def save_park_data (db : ParksDB) (parkId : Nat) (processedUrls : List String) : ParksDB :=
  let db1 := upsertPark db parkId
  { db1 with images := db1.images ++ processedUrls.map (fun u => ⟨parkId, "photo", u⟩) }

/-- One full run of `fetch_all_assets` (fetch_assets_mvp.py lines 327-357) with
the provider responses fixed: each entity is the pair of its park id and the
urls of the photos that download and process successfully for it.  The loop
calls `save_park_data` once per entity. -/
def fetch_all_assets_run (entities : List (Nat × List String)) (db : ParksDB) : ParksDB :=
  entities.foldl (fun d e => save_park_data d e.1 e.2) db

/-! ## NASA location validation (fetch_world_parks_data.py) -/

/-- Response of the NASA `planetary/earth/assets` availability check:
HTTP status and the `count` field of the JSON body. -/
structure NasaAssetsResp where
  status : Nat
  count : Nat
deriving DecidableEq

/-- Response of the NASA `planetary/earth/imagery` request: HTTP status and
whether the content-type header starts with `image/`. -/
structure NasaImageryResp where
  status : Nat
  isImageContentType : Bool
deriving DecidableEq

/-- `validate_location_with_nasa` (fetch_world_parks_data.py lines 129-165).
The two network requests are passed in explicitly; `Except.error ()` models a
`requests` call that raises.  Control flow as in the source: the assets check
first; only when it returns status 200 with `count > 0` is the imagery request
issued; the imagery payload is saved and its url returned only when the
imagery request returns 200 with an `image/` content type; every other
non-raising path falls through to `return True, None`; the `except` clause
returns `(False, None)`.  `savedUrl` is the value of `save_nasa_image(...)`. -/
def validate_location_with_nasa (assets : Except Unit NasaAssetsResp)
    (imagery : Except Unit NasaImageryResp) (savedUrl : String) : Bool × Option String :=
  match assets with
  | Except.error _ => (false, none)
  | Except.ok a =>
    if a.status = 200 ∧ 0 < a.count then
      match imagery with
      | Except.error _ => (false, none)
      | Except.ok img =>
        if img.status = 200 ∧ img.isImageContentType then (true, some savedUrl)
        else (true, none)
    else (true, none)

/-! ## Download with retry and fallback (fetch_hq_earth_textures.py)

`download_with_retry` (lines 11-39) performs up to `max_retries` attempts; a
raising request (network error, or `raise_for_status` on a non-2xx status) is
retried after a constant `time.sleep(2)` — except after the last attempt; a
non-raising attempt streams the payload to disk, whatever its size, and
returns success at once.  `main` (lines 94-109) tries the candidate urls of a
texture in order and stops at the first successful download. -/

/-- An observable event of a download run: an HTTP attempt against `url`
(with its 0-based attempt index) or a `time.sleep` of `secs` seconds. -/
inductive FetchEv where
  | attempt (url : String) (i : Nat)
  | sleep (secs : Nat)
deriving DecidableEq

/-- The attempt loop of `download_with_retry`: `resp i` is attempt `i`'s
outcome — `Except.ok size` when the request succeeds (any 2xx status, payload
of `size` bytes written to disk), `Except.error ()` when it raises.
`remaining` counts the loop iterations left and `maxRetries` the total budget
(used by the `attempt < max_retries - 1` sleep guard of line 36).  Returns
the size of the accepted payload (if any) and the event trace. -/
def download_attempts (url : String) (resp : Nat → Except Unit Nat) :
    Nat → Nat → Nat → Option Nat × List FetchEv
  | _, 0, _ => (none, [])
  | i, r + 1, maxRetries =>
    match resp i with
    | Except.ok size => (some size, [FetchEv.attempt url i])
    | Except.error _ =>
      let tail := download_attempts url resp (i + 1) r maxRetries
      if i < maxRetries - 1 then
        (tail.1, FetchEv.attempt url i :: FetchEv.sleep 2 :: tail.2)
      else
        (tail.1, FetchEv.attempt url i :: tail.2)

/-- `download_with_retry(url, dest_path, max_retries=3)` (lines 11-39). -/
def download_with_retry (url : String) (resp : Nat → Except Unit Nat) (maxRetries : Nat) :
    Option Nat × List FetchEv :=
  download_attempts url resp 0 maxRetries maxRetries

/-- The candidate loop of `main` (lines 102-106): try each url with
`download_with_retry` (budget 3); on the first success stop, otherwise
advance to the next candidate.  Returns the accepted payload size (if any)
and the combined event trace. -/
def try_candidates (resp : String → Nat → Except Unit Nat) :
    List String → Option Nat × List FetchEv
  | [] => (none, [])
  | u :: rest =>
    let r := download_with_retry u (resp u) 3
    match r.1 with
    | some size => (some size, r.2)
    | none =>
      let rr := try_candidates resp rest
      (rr.1, r.2 ++ rr.2)

/-- The attempt events of a trace. -/
def attemptsOf (t : List FetchEv) : List (String × Nat) :=
  t.filterMap fun e =>
    match e with
    | FetchEv.attempt u i => some (u, i)
    | FetchEv.sleep _ => none

/-- The sleep durations of a trace, in order. -/
def sleepsOf (t : List FetchEv) : List Nat :=
  t.filterMap fun e =>
    match e with
    | FetchEv.attempt _ _ => none
    | FetchEv.sleep s => some s

/-- The texture-url loop of create_earth_textures.py (lines 37-47): each url
is requested in turn; `Except.error ()` models a raising request, `Except.ok
(status, size)` a response with the given HTTP status and payload byte size.
On status 200 the payload is written to disk — with no inspection of its
size — and the loop stops; on any other status or a raise the next url is
tried. -/
def texture_url_loop : List (Except Unit (Nat × Nat)) → Option Nat
  | [] => none
  | Except.error _ :: rest => texture_url_loop rest
  | Except.ok (status, size) :: rest =>
    if status = 200 then some size else texture_url_loop rest

/-- The per-texture guard of fetch_hq_earth_textures.py `main` (lines 98-100):
a destination file that already exists with more than 100000 bytes is skipped
without any fetch.  This is the only byte-size check in that download path,
and it applies to a previously saved file, never to a fetched payload. -/
def hq_skip_existing (existsFile : Bool) (fileSize : Nat) : Bool :=
  existsFile && decide (100000 < fileSize)

/-! ## API-call traces and rate limiting

fetch_assets_mvp.py sets `RATE_LIMIT_DELAY = 72` (line 37) and
fetch_world_parks_data.py sets `RATE_LIMIT_DELAY = 2` (line 39); both
orchestrator loops execute `time.sleep(RATE_LIMIT_DELAY)` after each
provider-fetch step.  The traces below record the provider calls and sleeps
those loops perform, parameterized by the configured delay. -/

/-- A provider API call or a `time.sleep`. -/
inductive ApiEv where
  | call (provider : String)
  | sleep (secs : Nat)
deriving DecidableEq

/-- The NASA calls issued by `validate_location_with_nasa`
(fetch_world_parks_data.py lines 141-158): the assets check is always
requested; when it returns 200 with `count > 0` the imagery request is issued
immediately afterwards, with no sleep in between. -/
def validate_nasa_trace (assets : Except Unit NasaAssetsResp) : List ApiEv :=
  match assets with
  | Except.error _ => [ApiEv.call "nasa"]
  | Except.ok a =>
    if a.status = 200 ∧ 0 < a.count then [ApiEv.call "nasa", ApiEv.call "nasa"]
    else [ApiEv.call "nasa"]

/-- One iteration of `fetch_all_parks_data` (fetch_world_parks_data.py lines
385-413): NASA validation, sleep, NPS images for US parks followed by a
sleep, Unsplash photos followed by a sleep. -/
def world_park_trace (delay : Nat) (assets : Except Unit NasaAssetsResp) (isUS : Bool) :
    List ApiEv :=
  validate_nasa_trace assets ++ [ApiEv.sleep delay]
    ++ (if isUS then [ApiEv.call "nps", ApiEv.sleep delay] else [])
    ++ [ApiEv.call "unsplash", ApiEv.sleep delay]

/-- One iteration of `fetch_all_assets` (fetch_assets_mvp.py lines 334-350):
Unsplash, sleep, NPS, sleep, NASA, sleep. -/
def mvp_park_trace (delay : Nat) : List ApiEv :=
  [ApiEv.call "unsplash", ApiEv.sleep delay, ApiEv.call "nps", ApiEv.sleep delay,
   ApiEv.call "nasa", ApiEv.sleep delay]

/-- The trace of a full `fetch_all_assets` run over `n` parks. -/
def mvp_run_trace (delay n : Nat) : List ApiEv :=
  (List.replicate n (mvp_park_trace delay)).flatten

/-- Walk the tail of a trace after a `p`-call: accumulate sleep seconds and
emit the accumulated gap at each subsequent `p`-call. -/
def gapsAux (p : String) : Nat → List ApiEv → List Nat
  | _, [] => []
  | acc, ApiEv.sleep s :: rest => gapsAux p (acc + s) rest
  | acc, ApiEv.call q :: rest =>
    if q = p then acc :: gapsAux p 0 rest else gapsAux p acc rest

/-- The guaranteed spacings (summed sleep seconds) between each pair of
consecutive calls to provider `p` in a trace. -/
def callGaps (p : String) : List ApiEv → List Nat
  | [] => []
  | ApiEv.sleep _ :: rest => callGaps p rest
  | ApiEv.call q :: rest => if q = p then gapsAux p 0 rest else callGaps p rest

/-- Whether a trace contains a call event. -/
def hasCall : List ApiEv → Bool
  | [] => false
  | ApiEv.call _ :: _ => true
  | ApiEv.sleep _ :: rest => hasCall rest

/-- Total sleep seconds before the first call event of a trace. -/
def preCallSleep : List ApiEv → Nat
  | [] => 0
  | ApiEv.call _ :: _ => 0
  | ApiEv.sleep s :: rest => s + preCallSleep rest

/-- Traces in which every API call is immediately followed by a sleep of at
least `d` seconds — the shape the `time.sleep(RATE_LIMIT_DELAY)` after every
fetch step produces in `fetch_all_assets`. -/
inductive Spaced (d : Nat) : List ApiEv → Prop where
  | nil : Spaced d []
  | sleep (s : Nat) (t : List ApiEv) : Spaced d t → Spaced d (ApiEv.sleep s :: t)
  | call (q : String) (s : Nat) (t : List ApiEv) (hs : d ≤ s) :
      Spaced d t → Spaced d (ApiEv.call q :: ApiEv.sleep s :: t)

/-! ## Procedural texture synthesis

create_earth_textures.py seeds the global numpy generator (`np.random.seed(42)`,
line 89) before drawing its cloud blobs; fetch_earth_textures_final.py's
`create_high_quality_earth_textures` draws from `np.random` without ever
seeding, so its draws come from whatever state the ambient global generator
happens to be in.  The ambient generator is modelled as an explicit stream of
the values its next draws return. -/

/-- `np.clip(v, 0, 255)` on an exact value. -/
def clip255 (v : ℚ) : ℚ := max 0 (min 255 v)

/-- One pixel of the Europe region fill of `create_high_quality_earth_textures`
(fetch_earth_textures_final.py lines 67-71): with the `np.random.random() >
0.3` guard the pixel is overwritten by a green jittered by
`np.random.normal(0, 10)` and clipped to [0, 255]; otherwise the ocean base
value already stored at that pixel is kept. -/
def hq_europe_pixel (drawRandom drawNormal : ℚ) (base : ℚ × ℚ × ℚ) : ℚ × ℚ × ℚ :=
  if 3 / 10 < drawRandom then
    (clip255 (34 + drawNormal), clip255 (139 + drawNormal), clip255 (34 + drawNormal))
  else base

/-- The first Europe pixel written by `create_high_quality_earth_textures`, as
a function of the ambient global RNG stream at that point (`g 0` the
`np.random.random()` draw, `g 1` the `np.random.normal(0, 10)` draw) and of
the ocean base value stored by the gradient pass of lines 44-51.  The script
never calls `np.random.seed`, so `g` varies between invocations. -/
def create_high_quality_europe_first_pixel (g : Nat → ℚ) (base : ℚ × ℚ × ℚ) : ℚ × ℚ × ℚ :=
  hq_europe_pixel (g 0) (g 1) base

/-- The four draws parameterizing one cloud blob of create_earth_textures.py
(lines 90-100): latitude (`np.random.normal(0, 30)`), longitude
(`np.random.uniform(-180, 180)`), x-size and y-size (`np.random.randint`). -/
structure CloudBlob where
  latDraw : ℚ
  lonDraw : ℚ
  sizeXDraw : ℚ
  sizeYDraw : ℚ
deriving DecidableEq

/-- The 100 cloud blobs drawn by the loop of create_earth_textures.py lines
90-112, four consecutive draws per blob, taken from the stream `g`.  The
rendered raster is a function of this blob list (each blob contributes alpha
through `cloud_alpha_update` below), so byte-identical blob lists give
byte-identical rasters. -/
def cloud_blobs (g : Nat → ℚ) (count : Nat) : List CloudBlob :=
  (List.range count).map fun k => ⟨g (4 * k), g (4 * k + 1), g (4 * k + 2), g (4 * k + 3)⟩

/-- The cloud generation of `create_earth_textures` (lines 84-112): it first
executes `np.random.seed(42)`, so every draw comes from the stream the
generator produces for seed 42 — `seeded 42` — and the ambient pre-call
generator state `ambient` is discarded.  `seeded` abstracts the numpy
generator: `seeded s` is the draw stream after `np.random.seed(s)`. -/
def create_earth_textures_cloud_blobs (seeded : Nat → Nat → ℚ) (ambient : Nat → ℚ) :
    List CloudBlob :=
  cloud_blobs (seeded 42) 100

/-! ## Compositing updates (create_earth_textures.py, fix_textures.py)

numpy `uint8` scalar plus Python int is computed in `uint8` and wraps modulo
256; `uint8` array plus a Python float list is promoted to `float64` (exact
here) and only truncated on assignment. -/

/-- The cloud-alpha compositing update of create_earth_textures.py line 112:
`min(255, clouds[cy, cx % width, 3] + alpha // 2)` — the addition is performed
on a numpy `uint8` scalar, so it wraps modulo 256 before `min` applies. -/
def cloud_alpha_update (base alpha : Nat) : Nat :=
  min 255 ((base + alpha / 2) % 256)

/-- The cloud-alpha compositing update of fix_textures.py line 102
(`create_clouds_map`): `min(255, clouds[y, x, 3] + alpha)` with
`alpha = int((1 - dist) * 128)` — again a `uint8` addition that wraps modulo
256 before `min` applies. -/
def fix_cloud_alpha_update (base alpha : Nat) : Nat :=
  min 255 ((base + alpha) % 256)

/-- One channel of the night-lights compositing update of fix_textures.py
line 133 (`create_night_map`): `np.clip(night[ny, nx] + [...], 0, 255)` — the
`uint8` array plus a float list is promoted to `float64`, clipped, and floored
back into `uint8` on assignment. -/
def night_channel_update (base : Nat) (add : ℚ) : Nat :=
  (⌊max 0 (min 255 ((base : ℚ) + add))⌋).toNat

/-! ## PIL thumbnail resize (fetch_assets_mvp.py `download_and_process_image`)

Lines 244-257 resize via `Image.thumbnail(dimensions, LANCZOS)`.  PIL's
`thumbnail` computes the target size as below (floats replaced by exact
rationals): return the source size unchanged when it already fits the box,
otherwise scale the axis-aligned dimensions to the box preserving the aspect
ratio, rounding to the neighbouring integer with the smaller aspect error
(Python `min` keeps the first argument — the floor — on ties) and never below
1 pixel. -/

/-- PIL `round_aspect(number, key)`: `max(min(floor, ceil, key=key), 1)`. -/
def round_aspect (t : ℚ) (err : ℤ → ℚ) : ℤ :=
  max (if err ⌊t⌋ ≤ err ⌈t⌉ then ⌊t⌋ else ⌈t⌉) 1

/-- PIL `Image.thumbnail` target-size computation for a `w × h` source and a
`bw × bh` bounding box (`aspect = w / h` written out at each use). -/
def thumbnail_size (w h bw bh : ℕ) : ℕ × ℕ :=
  if w ≤ bw ∧ h ≤ bh then (w, h)
  else if (w : ℚ) / (h : ℚ) ≤ (bw : ℚ) / (bh : ℚ) then
    ((round_aspect ((bh : ℚ) * ((w : ℚ) / (h : ℚ)))
        (fun n => |(w : ℚ) / (h : ℚ) - (n : ℚ) / (bh : ℚ)|)).toNat, bh)
  else
    (bw, (round_aspect ((bw : ℚ) / ((w : ℚ) / (h : ℚ)))
        (fun n => if n = 0 then 0 else |(w : ℚ) / (h : ℚ) - (bw : ℚ) / (n : ℚ)|)).toNat)

/-- The size presets of `download_and_process_image`
(fetch_assets_mvp.py lines 238-242), each saved as JPEG at quality 85. -/
def size_presets : List (String × Nat × Nat) :=
  [("original", 1920, 1080), ("medium", 800, 600), ("thumb", 400, 300)]

/-- The inline preview payload of lines 253-258, described by its parameters:
the source resized into a (20, 20) bounding box, re-encoded as JPEG at
quality 20, base64-inlined behind the data-url header (the JPEG and base64
codecs are third-party and abstracted away). -/
structure BlurPreview where
  dims : Nat × Nat
  quality : Nat
  dataUrlHeader : String
deriving DecidableEq

/-- `tiny.thumbnail((20, 20)); tiny.save(buffer, quality=20);
blur_hash = "data:image/jpeg;base64," + b64encode(...)` (lines 253-262). -/
def make_blur_preview (w h : Nat) : BlurPreview :=
  ⟨thumbnail_size w h 20 20, 20, "data:image/jpeg;base64,"⟩

/-! ## Transactional catalog writes (fetch_assets_mvp.py `save_park_data`)

`save_park_data` opens one sqlite connection, executes the park upsert, then
the image inserts, then `conn.commit()`.  Python's sqlite3 opens an implicit
transaction at the first DML statement and makes it durable only at
`commit()`, so a crash anywhere before the commit leaves the database
unchanged, and the committed log always contains the whole per-entity write
batch with the upsert first. -/

/-- A single catalog write executed inside the per-entity transaction. -/
inductive CatalogWrite where
  | parkUpsert (parkId : Nat)
  | imageInsert (parkId : Nat)
deriving DecidableEq

/-- The write batch of one `save_park_data` call (lines 278-322): the park
upsert, then one image insert per successfully processed photo. -/
def save_park_data_tx (parkId : Nat) (processedCount : Nat) : List CatalogWrite :=
  CatalogWrite.parkUpsert parkId :: List.replicate processedCount (CatalogWrite.imageInsert parkId)

/-- Committing one per-entity batch: atomic — the whole batch is appended to
the committed log, or (a crash anywhere before `conn.commit()`, which sqlite
rolls back) nothing is. -/
def commit_step (db : List CatalogWrite) (tx : List CatalogWrite) (crashed : Bool) :
    List CatalogWrite :=
  if crashed then db else db ++ tx

/-- A run over entities `(parkId, processedCount, crashed)`: each entity's
batch commits atomically or not at all. -/
def run_with_crashes (entities : List (Nat × Nat × Bool)) (db : List CatalogWrite) :
    List CatalogWrite :=
  entities.foldl (fun d e => commit_step d (save_park_data_tx e.1 e.2.1) e.2.2) db

/-- Referential integrity of a committed log: every image insert is preceded
(strictly earlier in the log) by the upsert of the park it references. -/
def refIntegrity (db : List CatalogWrite) : Prop :=
  ∀ (i : Fin db.length) (pid : Nat), db.get i = CatalogWrite.imageInsert pid →
    CatalogWrite.parkUpsert pid ∈ db.take i.val

/-! ## Per-entity error containment (fetch_assets_mvp.py)

Each provider-fetch step and the image-processing step wrap their whole body
in try/except and return an empty result on any error; the orchestrator loop
of `fetch_all_assets` therefore never sees an exception from them. -/

/-- `fetch_unsplash_photos` (lines 116-157): the request/parse body runs under
try/except and any raised error yields `[]`. -/
def fetch_unsplash_photos (r : Except String (List String)) : List String :=
  match r with
  | Except.ok urls => urls
  | Except.error _ => []

/-- `fetch_nps_data` (lines 190-222): try/except, `None` on any error or empty
payload path. -/
def fetch_nps_data (r : Except String String) : Option String :=
  match r with
  | Except.ok d => some d
  | Except.error _ => none

/-- `fetch_nasa_satellite_image` (lines 159-188): try/except, `None` on any
error (the non-image content-type path also returns `None`). -/
def fetch_nasa_satellite_image (r : Except String (Option String)) : Option String :=
  match r with
  | Except.ok o => o
  | Except.error _ => none

/-- `download_and_process_image` (lines 224-269): try/except, `None` on any
error, `Some dims` on success. -/
def download_and_process_ok (r : Except String (Nat × Nat)) : Option (Nat × Nat) :=
  match r with
  | Except.ok d => some d
  | Except.error _ => none

/-- The outcomes of every external interaction one entity's iteration
performs: the three provider fetches and, per photo url, the image download
and processing. -/
structure ProviderResponses where
  unsplash : Except String (List String)
  npsData : Except String String
  nasaImage : Except String (Option String)
  imageFetch : String → Except String (Nat × Nat)

/-- The photo urls that survive one entity's iteration: those returned by the
(error-containing) Unsplash fetch whose download and processing succeed. -/
def processed_urls (rs : ProviderResponses) : List String :=
  (fetch_unsplash_photos rs.unsplash).filter
    fun u => (download_and_process_ok (rs.imageFetch u)).isSome

/-- `fetch_all_assets` with all external outcomes explicit: every entity in
the list is processed in order — errors inside the fetch and processing steps
only shrink that entity's photo list. -/
def fetch_all_assets_protected (entities : List (Nat × ProviderResponses)) (db : ParksDB) :
    ParksDB :=
  entities.foldl (fun d e => save_park_data d e.1 (processed_urls e.2)) db

/-! # Theorems -/

/-- Auxiliary: `save_park_data` appends exactly one `images` row per processed
photo and never removes a row. -/
theorem images_length_save (db : ParksDB) (parkId : Nat) (urls : List String) :
    (save_park_data db parkId urls).images.length = db.images.length + urls.length := by
  unfold save_park_data upsertPark
  split <;> simp

/-- Auxiliary: each run appends exactly one `images` row per processed photo. -/
theorem images_length_run (entities : List (Nat × List String)) (db : ParksDB) :
    (fetch_all_assets_run entities db).images.length
      = db.images.length + (entities.map (fun e => e.2.length)).sum := by
  induction entities generalizing db with
  | nil => simp [fetch_all_assets_run]
  | cons e es ih =>
      simp only [fetch_all_assets_run, List.foldl_cons, List.map_cons, List.sum_cons]
      have h := ih (save_park_data db e.1 e.2)
      simp only [fetch_all_assets_run] at h
      rw [h, images_length_save]
      ring

/-- C1: the claim as stated — running the full ingestion twice over the same
entity list and the same provider responses yields the same asset row count as
running it once — is false: with one park and one successfully processed
photo, the second run inserts a second `images` row (plain `INSERT`, no
deduplication key). -/
theorem C1_counterexample :
    ¬ ((fetch_all_assets_run [(1, ["u"])] (fetch_all_assets_run [(1, ["u"])] emptyDB)).images.length
        = (fetch_all_assets_run [(1, ["u"])] emptyDB).images.length) := by
  decide

/-- C1 (amended): the image inserts of `save_park_data` are unconditional
appends — no row carries or is checked against a deduplication key — so
running the full ingestion twice over the same entity list and provider
responses yields twice the asset row count of running it once (the `parks`
table is keyed by id and does not grow; the `images` table doubles). -/
theorem C1_amended_double (entities : List (Nat × List String)) :
    (fetch_all_assets_run entities (fetch_all_assets_run entities emptyDB)).images.length
      = 2 * (fetch_all_assets_run entities emptyDB).images.length := by
  rw [images_length_run, images_length_run]
  simp [emptyDB]
  ring

/-- C10: `validate_location_with_nasa` reports a location as valid whenever no
exception is raised: it returns `(True, None)` even when the assets check
responds with a non-200 status or reports zero matching assets, and its first
component is `False` only when one of the two requests raises. -/
theorem C10_validated_means_no_exception :
    (∀ (a : NasaAssetsResp) (img : Except Unit NasaImageryResp) (url : String),
        a.status ≠ 200 ∨ a.count = 0 →
        validate_location_with_nasa (Except.ok a) img url = (true, none))
    ∧ (∀ (assets : Except Unit NasaAssetsResp) (img : Except Unit NasaImageryResp)
        (url : String),
        (validate_location_with_nasa assets img url).1 = false →
        assets = Except.error () ∨ img = Except.error ()) := by
  constructor
  · intro a img url h
    have hcond : ¬ (a.status = 200 ∧ 0 < a.count) := by
      rcases h with h | h
      · exact fun hc => h hc.1
      · exact fun hc => by simp [h] at hc
    simp [validate_location_with_nasa, hcond]
  · intro assets img url h
    match assets with
    | Except.error e => exact Or.inl (by cases e; rfl)
    | Except.ok a =>
        simp only [validate_location_with_nasa] at h
        by_cases hc : a.status = 200 ∧ 0 < a.count
        · simp only [hc, if_true] at h
          match img with
          | Except.error e => exact Or.inr (by cases e; rfl)
          | Except.ok i =>
              by_cases hi : i.status = 200 ∧ i.isImageContentType = true
              · simp [hi] at h
              · simp [hi] at h
        · simp [hc] at h

/-- Witness for C10: a 404 assets response with zero count is still reported
as a valid location. -/
theorem C10_witness :
    validate_location_with_nasa (Except.ok ⟨404, 0⟩) (Except.ok ⟨200, true⟩) "u" = (true, none) :=
  C10_validated_means_no_exception.1 ⟨404, 0⟩ (Except.ok ⟨200, true⟩) "u" (Or.inl (by decide))

/-- Auxiliary: the attempt loop performs at most `remaining` attempts and
every sleep it emits lasts exactly 2 seconds. -/
theorem download_attempts_shape (url : String) (resp : Nat → Except Unit Nat) :
    ∀ (r i m : Nat),
      (attemptsOf (download_attempts url resp i r m).2).length ≤ r
      ∧ ∀ s ∈ sleepsOf (download_attempts url resp i r m).2, s = 2 := by
  intro r
  induction r with
  | zero => intro i m; simp [download_attempts, attemptsOf, sleepsOf]
  | succ r ih =>
      intro i m
      simp only [download_attempts]
      match hresp : resp i with
      | Except.ok size =>
          simp [attemptsOf, sleepsOf]
      | Except.error e =>
          have h := ih (i + 1) m
          by_cases hi : i < m - 1
          · simp only [hi, if_true]
            constructor
            · simpa [attemptsOf] using Nat.succ_le_succ h.1
            · intro s hs
              simp only [sleepsOf, List.filterMap_cons] at hs
              simp only [List.mem_cons] at hs
              rcases hs with hs | hs
              · exact hs
              · exact h.2 s hs
          · simp only [hi, if_false]
            constructor
            · simpa [attemptsOf] using Nat.succ_le_succ h.1
            · intro s hs
              simp only [sleepsOf, List.filterMap_cons] at hs
              exact h.2 s hs

/-- C3: the claim as stated is false in its backoff part — with a single
candidate whose three attempts all fail, the delays slept between attempts are
2 s and 2 s (a constant `time.sleep(2)`), not the exponentially increasing
2 s then 4 s the claim requires. -/
theorem C3_counterexample :
    sleepsOf (try_candidates (fun _ _ => Except.error ()) ["a"]).2 = [2, 2]
    ∧ sleepsOf (try_candidates (fun _ _ => Except.error ()) ["a"]).2 ≠ [2, 4] := by
  decide

/-- C3 (amended): each candidate is attempted at most 3 times
(`max_retries = 3`) with a constant 2-second delay between consecutive
attempts (not exponential backoff); on the first successful attempt the
payload is returned and no further candidate is tried; only after all attempts
for a candidate fail does the loop advance to the next candidate. -/
theorem C3_amended_retry_fallback (u : String) (rest : List String)
    (resp : String → Nat → Except Unit Nat) :
    (attemptsOf (download_with_retry u (resp u) 3).2).length ≤ 3
    ∧ (∀ s ∈ sleepsOf (download_with_retry u (resp u) 3).2, s = 2)
    ∧ (∀ size, (download_with_retry u (resp u) 3).1 = some size →
        try_candidates resp (u :: rest) = (some size, (download_with_retry u (resp u) 3).2))
    ∧ ((download_with_retry u (resp u) 3).1 = none →
        try_candidates resp (u :: rest)
          = ((try_candidates resp rest).1,
              (download_with_retry u (resp u) 3).2 ++ (try_candidates resp rest).2)) := by
  refine ⟨(download_attempts_shape u (resp u) 3 0 3).1,
    (download_attempts_shape u (resp u) 3 0 3).2, ?_, ?_⟩
  · intro size h
    simp only [try_candidates]
    rw [h]
  · intro h
    simp only [try_candidates]
    rw [h]

/-- Witness for C3: a candidate succeeding at its first attempt returns at
once and the second candidate is never contacted. -/
theorem C3_witness :
    try_candidates (fun _ _ => Except.ok 7) ["a", "b"]
      = (some 7, (download_with_retry "a" ((fun _ _ => Except.ok 7) "a") 3).2) :=
  (C3_amended_retry_fallback "a" ["b"] (fun _ _ => Except.ok 7)).2.2.1 7 (by decide)

/-- C7: the claim as stated is false — a 2xx response with a 10-byte payload
(far below every byte-size threshold appearing in the repository: 100000,
10000, 1000) is accepted as a successful download by both the
`download_with_retry` candidate loop and the texture-url loop of
create_earth_textures.py; no fetch path inspects the payload size. -/
theorem C7_counterexample :
    (try_candidates (fun _ _ => Except.ok 10) ["a"]).1 = some 10
    ∧ texture_url_loop [Except.ok (200, 10)] = some 10
    ∧ 10 < 100000 := by
  decide

/-- C7 (amended): the fetch routines accept any non-raising 2xx response
whatever its payload size; the only byte-size thresholds in the download path
guard already-saved destination files (skip when an existing file exceeds
100000 bytes; nothing is skipped when the file does not exist), never a
fetched payload. -/
theorem C7_amended_no_payload_size_check (s : Nat) (rest : List (Except Unit (Nat × Nat)))
    (u : String) (resp : Nat → Except Unit Nat) (h : resp 0 = Except.ok s) :
    texture_url_loop (Except.ok (200, s) :: rest) = some s
    ∧ (download_with_retry u resp 3).1 = some s
    ∧ (∀ fileSize, hq_skip_existing false fileSize = false) := by
  refine ⟨by simp [texture_url_loop], ?_, by simp [hq_skip_existing]⟩
  simp [download_with_retry, download_attempts, h]

/-- Witness for C7: a 5-byte payload is accepted. -/
theorem C7_witness :
    texture_url_loop [Except.ok (200, 5)] = some 5
    ∧ (download_with_retry "a" (fun _ => Except.ok 5) 3).1 = some 5
    ∧ (∀ fileSize, hq_skip_existing false fileSize = false) :=
  C7_amended_no_payload_size_check 5 [] "a" (fun _ => Except.ok 5) rfl

/-- C5: at the failing input — two overlapping cloud blobs of
fix_textures.py `create_clouds_map`, each contributing its maximal alpha
`int((1 - 0) * 128) = 128` at their shared center pixel — the composited
alpha is 0, not the saturated 255: the second update computes `128 + 128` on
a `uint8`, wrapping to 0 before `min(255, ...)` applies.  By contrast the
night-map update (fix_textures.py line 133), which adds in `float64` and
clips, does saturate exactly at 255, and the halved-alpha cloud update of
create_earth_textures.py line 112 cannot exceed 254 for a pair. -/
theorem C5_wrap_at_failing_input :
    fix_cloud_alpha_update (fix_cloud_alpha_update 0 128) 128 = 0
    ∧ (0 : Nat) ≠ 255
    ∧ night_channel_update 200 200 = 255
    ∧ cloud_alpha_update (cloud_alpha_update 0 255) 255 = 254 := by
  refine ⟨by decide, by decide, ?_, by decide⟩
  have h1 : min (255 : ℚ) (((200 : Nat) : ℚ) + 200) = 255 := by norm_num
  have h2 : max (0 : ℚ) 255 = 255 := by norm_num
  rw [night_channel_update, h1, h2]
  norm_num
  decide

/-- C2: the claim as stated — two invocations of the synthesis routines
produce byte-identical output — is false for
`create_high_quality_earth_textures`: the script never calls
`np.random.seed`, so its draws come from the ambient global generator state,
and two invocations meeting different states (here: next draws all 1 versus
all 0) paint the first Europe pixel differently (jittered green versus the
untouched ocean base). -/
theorem C2_counterexample :
    create_high_quality_europe_first_pixel (fun _ => 1) (50, 100, 160)
      ≠ create_high_quality_europe_first_pixel (fun _ => 0) (50, 100, 160) := by
  simp only [create_high_quality_europe_first_pixel, hq_europe_pixel, clip255]
  norm_num

/-- C2 (amended): the cloud layer of `create_earth_textures` is deterministic:
`np.random.seed(42)` (line 89) makes every one of its draws a function of the
seed alone, so two invocations — whatever ambient generator states they meet —
draw identical blob lists and hence byte-identical rasters.
`create_high_quality_earth_textures` has no such seeding and is not
deterministic (see the counterexample). -/
theorem C2_amended_seeded_deterministic (seeded : Nat → Nat → ℚ) (amb1 amb2 : Nat → ℚ) :
    create_earth_textures_cloud_blobs seeded amb1
      = create_earth_textures_cloud_blobs seeded amb2 := rfl

/-- Auxiliary: `Spaced` is closed under concatenation. -/
theorem spaced_append (d : Nat) (t1 t2 : List ApiEv) (h1 : Spaced d t1) (h2 : Spaced d t2) :
    Spaced d (t1 ++ t2) := by
  induction h1 with
  | nil => simpa using h2
  | sleep s t ht ih => exact Spaced.sleep s (t ++ t2) ih
  | call q s t hs ht ih => exact Spaced.call q s (t ++ t2) hs ih

/-- Auxiliary: one mvp loop iteration is spaced by its own sleeps. -/
theorem spaced_mvp_park (delay : Nat) : Spaced delay (mvp_park_trace delay) := by
  unfold mvp_park_trace
  exact Spaced.call _ _ _ le_rfl (Spaced.call _ _ _ le_rfl
    (Spaced.call _ _ _ le_rfl Spaced.nil))

/-- Auxiliary: a whole mvp run trace is spaced. -/
theorem spaced_mvp_run (delay n : Nat) : Spaced delay (mvp_run_trace delay n) := by
  induction n with
  | zero => simpa [mvp_run_trace] using Spaced.nil (d := delay)
  | succ n ih =>
      have h : mvp_run_trace delay (n + 1) = mvp_park_trace delay ++ mvp_run_trace delay n := by
        simp [mvp_run_trace, List.replicate_succ]
      rw [h]
      exact spaced_append _ _ _ (spaced_mvp_park delay) ih

/-- Auxiliary: walking a spaced trace with enough accumulated sleep before the
next call, every emitted gap is at least `d`. -/
theorem gapsAux_ge (d : Nat) (p : String) :
    ∀ (t : List ApiEv), Spaced d t → ∀ acc : Nat,
      (hasCall t = true → d ≤ acc + preCallSleep t) →
      ∀ g ∈ gapsAux p acc t, d ≤ g := by
  intro t ht
  induction ht with
  | nil => intro acc hinv g hg; simp [gapsAux] at hg
  | sleep s t hts ih =>
      intro acc hinv g hg
      simp only [gapsAux] at hg
      refine ih (acc + s) ?_ g hg
      intro hc
      have h := hinv (by simpa [hasCall] using hc)
      simp only [preCallSleep] at h
      omega
  | call q s t hs hts ih =>
      intro acc hinv g hg
      have hacc : d ≤ acc := by
        have h := hinv (by simp [hasCall])
        simpa [preCallSleep] using h
      simp only [gapsAux] at hg
      by_cases hq : q = p
      · rw [if_pos hq] at hg
        rcases List.mem_cons.mp hg with hg | hg
        · omega
        · exact ih (0 + s) (fun _ => by omega) g hg
      · rw [if_neg hq] at hg
        exact ih (acc + s) (fun _ => by omega) g hg

/-- Auxiliary: in a spaced trace all inter-call gaps are at least `d`. -/
theorem callGaps_ge (d : Nat) (p : String) :
    ∀ (t : List ApiEv), Spaced d t → ∀ g ∈ callGaps p t, d ≤ g := by
  intro t ht
  induction ht with
  | nil => intro g hg; simp [callGaps] at hg
  | sleep s t hts ih =>
      intro g hg
      simp only [callGaps] at hg
      exact ih g hg
  | call q s t hs hts ih =>
      intro g hg
      simp only [callGaps] at hg
      by_cases hq : q = p
      · rw [if_pos hq] at hg
        simp only [gapsAux] at hg
        exact gapsAux_ge d p t hts (0 + s) (fun _ => by omega) g hg
      · rw [if_neg hq] at hg
        exact ih g hg

/-- C9: the claim as stated is false for `fetch_world_parks_data`: a park
whose NASA assets check answers 200 with `count > 0` triggers the imagery
request immediately afterwards, so the run trace contains two consecutive
calls of the NASA provider class with 0 seconds of guaranteed spacing —
below the configured `RATE_LIMIT_DELAY = 2`. -/
theorem C9_counterexample :
    callGaps "nasa" (world_park_trace 2 (Except.ok ⟨200, 1⟩) false) = [0]
    ∧ ¬ (∀ g ∈ callGaps "nasa" (world_park_trace 2 (Except.ok ⟨200, 1⟩) false), 2 ≤ g) := by
  decide

/-- C9 (amended): in `fetch_all_assets` (fetch_assets_mvp.py) every provider
call is followed by `time.sleep(RATE_LIMIT_DELAY)` before any further call,
so any two consecutive calls to the same provider class are spaced by at
least the configured delay, for every configured delay including 0 (where the
sleeps degrade to no-ops); `fetch_world_parks_data`'s NASA validation,
however, issues its two NASA requests back-to-back (see the
counterexample). -/
theorem C9_amended_mvp_spacing (delay n : Nat) (p : String) :
    ∀ g ∈ callGaps p (mvp_run_trace delay n), delay ≤ g :=
  callGaps_ge delay p _ (spaced_mvp_run delay n)

/-- Witness for C9: over two parks at the configured delay 72, the gap
between the two Unsplash calls is 216 seconds, at least 72. -/
theorem C9_witness :
    216 ∈ callGaps "unsplash" (mvp_run_trace 72 2) ∧ 72 ≤ 216 :=
  ⟨by decide, C9_amended_mvp_spacing 72 2 "unsplash" 216 (by decide)⟩

/-- Auxiliary: the empty log has referential integrity. -/
theorem refIntegrity_nil : refIntegrity [] := by
  intro i
  exact absurd i.2 (by simp)

/-- Auxiliary: committing one `save_park_data` batch — atomically, with the
park upsert first — preserves referential integrity. -/
theorem refIntegrity_commit (db : List CatalogWrite) (pid n : Nat) (crashed : Bool)
    (h : refIntegrity db) :
    refIntegrity (commit_step db (save_park_data_tx pid n) crashed) := by
  cases crashed with
  | true => exact h
  | false =>
    show refIntegrity (db ++ save_park_data_tx pid n)
    intro i pid0 hget
    have hlen : i.val < db.length + (save_park_data_tx pid n).length :=
      Nat.lt_of_lt_of_le i.2 (le_of_eq (List.length_append db _))
    rcases lt_or_le i.val db.length with hlt | hge
    · have hget2 : db.get ⟨i.val, hlt⟩ = CatalogWrite.imageInsert pid0 := by
        rw [← hget]
        simp only [List.get_eq_getElem]
        exact (List.getElem_append_left hlt).symm
      have hmem := h ⟨i.val, hlt⟩ pid0 hget2
      rw [List.take_append_of_le_length (le_of_lt hlt)]
      exact hmem
    · have htx : (save_park_data_tx pid n).length = n + 1 := by
        simp [save_park_data_tx]
      have hklt : i.val - db.length < (save_park_data_tx pid n).length := by omega
      have hget3 : (save_park_data_tx pid n).get ⟨i.val - db.length, hklt⟩
          = CatalogWrite.imageInsert pid0 := by
        rw [← hget]
        simp only [List.get_eq_getElem]
        exact (List.getElem_append_right hge).symm
      have hpos : 1 ≤ i.val - db.length := by
        by_contra hcon
        have h0 : i.val - db.length = 0 := by omega
        simp [List.get_eq_getElem, save_park_data_tx, h0] at hget3
      rcases Nat.exists_eq_add_of_le hpos with ⟨m, hm⟩
      have hm2 : i.val - db.length = m + 1 := by omega
      have hpid : pid0 = pid := by
        have hx := hget3
        simp only [List.get_eq_getElem, save_park_data_tx, hm2, List.getElem_cons_succ,
          List.getElem_replicate] at hx
        exact (CatalogWrite.imageInsert.inj hx).symm
      rw [List.take_append_eq_append_take]
      refine List.mem_append_right _ ?_
      rw [hm2]
      simp only [save_park_data_tx, List.take_succ_cons]
      rw [hpid]
      exact List.mem_cons_self _ _

/-- C6: for every entity, the per-entity catalog writes commit atomically as
one transaction whose first write is the entity upsert, so in every committed
log reachable by a run — whatever subset of entities crashed before their
commit — each image insert is preceded, strictly earlier in the log, by the
upsert of the park it references. -/
theorem C6_entity_before_assets (entities : List (Nat × Nat × Bool)) :
    refIntegrity (run_with_crashes entities []) := by
  have hgen : ∀ (es : List (Nat × Nat × Bool)) (db : List CatalogWrite),
      refIntegrity db → refIntegrity (run_with_crashes es db) := by
    intro es
    induction es with
    | nil => intro db h; exact h
    | cons e es ih =>
        intro db h
        exact ih _ (refIntegrity_commit db e.1 e.2.1 e.2.2 h)
  exact hgen entities [] refIntegrity_nil

/-- Witness for C6: one entity with two processed photos, not crashed — the
second log entry is an image insert and the park upsert precedes it. -/
theorem C6_witness :
    CatalogWrite.parkUpsert 5 ∈ (run_with_crashes [(5, 2, false)] []).take 1 :=
  C6_entity_before_assets [(5, 2, false)] ⟨1, by decide⟩ 5 (by decide)

/-- Auxiliary: after `save_park_data` the park id is present and previously
present ids remain. -/
theorem parks_after_save (db : ParksDB) (pid : Nat) (urls : List String) :
    pid ∈ (save_park_data db pid urls).parks
    ∧ ∀ q ∈ db.parks, q ∈ (save_park_data db pid urls).parks := by
  unfold save_park_data upsertPark
  by_cases h : pid ∈ db.parks <;> simp [h]
  · intro q hq
    exact Or.inl hq

/-- Auxiliary: park membership is preserved by the rest of the run. -/
theorem parks_mono_run (entities : List (Nat × ProviderResponses)) (db : ParksDB) (q : Nat)
    (h : q ∈ db.parks) : q ∈ (fetch_all_assets_protected entities db).parks := by
  induction entities generalizing db with
  | nil => exact h
  | cons e es ih =>
      exact ih (save_park_data db e.1 (processed_urls e.2))
        ((parks_after_save db e.1 (processed_urls e.2)).2 q h)

/-- C8: per-entity errors in the provider-fetch and image-processing steps
are caught inside those steps (each try/except yields the empty result), and
the orchestrator loop still processes every entity in the list: whatever the
response outcomes, every entity's park row is committed by its own
`save_park_data` call. -/
theorem C8_per_entity_containment (entities : List (Nat × ProviderResponses)) (db : ParksDB) :
    (∀ s, fetch_unsplash_photos (Except.error s) = [])
    ∧ (∀ s, fetch_nps_data (Except.error s) = none)
    ∧ (∀ s, fetch_nasa_satellite_image (Except.error s) = none)
    ∧ (∀ s, download_and_process_ok (Except.error s) = none)
    ∧ ∀ e ∈ entities, e.1 ∈ (fetch_all_assets_protected entities db).parks := by
  refine ⟨fun _ => rfl, fun _ => rfl, fun _ => rfl, fun _ => rfl, ?_⟩
  induction entities generalizing db with
  | nil => intro e he; exact absurd he (by simp)
  | cons x es ih =>
      intro e he
      rcases List.mem_cons.mp he with he | he
      · subst he
        exact parks_mono_run es (save_park_data db e.1 (processed_urls e.2)) e.1
          (parks_after_save db e.1 (processed_urls e.2)).1
      · exact ih (save_park_data db x.1 (processed_urls x.2)) e he

/-- Witness for C8: an entity all of whose provider fetches and image
downloads raise is still processed, and the following entity as well. -/
theorem C8_witness :
    (2 : Nat) ∈ (fetch_all_assets_protected
      [(1, ⟨Except.error "boom", Except.error "x", Except.error "y",
            fun _ => Except.error "z"⟩),
       (2, ⟨Except.ok ["u"], Except.ok "d", Except.ok none, fun _ => Except.ok (1, 1)⟩)]
      emptyDB).parks :=
  (C8_per_entity_containment
      [(1, ⟨Except.error "boom", Except.error "x", Except.error "y",
            fun _ => Except.error "z"⟩),
       (2, ⟨Except.ok ["u"], Except.ok "d", Except.ok none, fun _ => Except.ok (1, 1)⟩)]
      emptyDB).2.2.2.2
    (2, ⟨Except.ok ["u"], Except.ok "d", Except.ok none, fun _ => Except.ok (1, 1)⟩)
    (by simp)

/-- Auxiliary: `round_aspect` never returns less than 1. -/
theorem round_aspect_ge_one (t : ℚ) (err : ℤ → ℚ) : 1 ≤ round_aspect t err :=
  le_max_right _ _

/-- Auxiliary: `max c 1` stays within one of a positive target that `c` is
within one of. -/
theorem max_one_near (c : ℤ) (t : ℚ) (ht : 0 < t) (h1 : t - 1 ≤ (c : ℚ)) (h2 : (c : ℚ) ≤ t + 1) :
    |((max c 1 : ℤ) : ℚ) - t| ≤ 1 := by
  rw [abs_le]
  push_cast
  constructor
  · have hc := le_max_left (c : ℚ) 1
    linarith
  · have hmax : max (c : ℚ) 1 ≤ t + 1 := max_le h2 (by linarith)
    linarith

/-- Auxiliary: `round_aspect` lands within one of its rational target. -/
theorem round_aspect_near (t : ℚ) (err : ℤ → ℚ) (ht : 0 < t) :
    |((round_aspect t err : ℤ) : ℚ) - t| ≤ 1 := by
  unfold round_aspect
  split
  · exact max_one_near _ t ht (by linarith [Int.lt_floor_add_one t]) (by linarith [Int.floor_le t])
  · exact max_one_near _ t ht (by linarith [Int.le_ceil t]) (by linarith [Int.ceil_lt_add_one t])

/-- Auxiliary: `round_aspect` respects an integer upper bound (at least 1) on
its target. -/
theorem round_aspect_le (t : ℚ) (err : ℤ → ℚ) (m : ℤ) (hm : 1 ≤ m) (h : t ≤ (m : ℚ)) :
    round_aspect t err ≤ m := by
  have hceil : ⌈t⌉ ≤ m := Int.ceil_le.mpr h
  have hfloor : ⌊t⌋ ≤ m := le_trans (Int.floor_le_ceil t) hceil
  unfold round_aspect
  split
  · exact max_le hfloor hm
  · exact max_le hceil hm

/-- Auxiliary: the PIL thumbnail target of any positive source and box fits
the box, never upscales, and keeps the aspect ratio within one pixel of
rounding (the error is below one pixel of the scaled axis). -/
theorem thumbnail_size_spec (w h bw bh : Nat) (hw : 1 ≤ w) (hh : 1 ≤ h)
    (hbw : 1 ≤ bw) (hbh : 1 ≤ bh) :
    (thumbnail_size w h bw bh).1 ≤ bw ∧ (thumbnail_size w h bw bh).2 ≤ bh
    ∧ (thumbnail_size w h bw bh).1 ≤ w ∧ (thumbnail_size w h bw bh).2 ≤ h
    ∧ (|((thumbnail_size w h bw bh).1 : ℚ) * h - ((thumbnail_size w h bw bh).2 : ℚ) * w| ≤ h
       ∨ |((thumbnail_size w h bw bh).1 : ℚ) * h - ((thumbnail_size w h bw bh).2 : ℚ) * w| ≤ w) := by
  have hw0 : (0 : ℚ) < w := by exact_mod_cast Nat.lt_of_lt_of_le Nat.zero_lt_one hw
  have hh0 : (0 : ℚ) < h := by exact_mod_cast Nat.lt_of_lt_of_le Nat.zero_lt_one hh
  have hbw0 : (0 : ℚ) < bw := by exact_mod_cast Nat.lt_of_lt_of_le Nat.zero_lt_one hbw
  have hbh0 : (0 : ℚ) < bh := by exact_mod_cast Nat.lt_of_lt_of_le Nat.zero_lt_one hbh
  by_cases hfit : w ≤ bw ∧ h ≤ bh
  · have hres : thumbnail_size w h bw bh = (w, h) := by
      unfold thumbnail_size
      rw [if_pos hfit]
    rw [hres]
    refine ⟨hfit.1, hfit.2, le_rfl, le_rfl, Or.inl ?_⟩
    have hz : ((w : ℚ)) * h - ((h : ℚ)) * w = 0 := by ring
    rw [hz, abs_zero]
    positivity
  · have hcases : bw < w ∨ bh < h := by omega
    by_cases hbr : (w : ℚ) / h ≤ (bw : ℚ) / bh
    · -- branch scaling to the box height
      have hres : thumbnail_size w h bw bh
          = ((round_aspect ((bh : ℚ) * ((w : ℚ) / (h : ℚ)))
              (fun n => |(w : ℚ) / (h : ℚ) - (n : ℚ) / (bh : ℚ)|)).toNat, bh) := by
        unfold thumbnail_size
        rw [if_neg hfit, if_pos hbr]
      rw [hres]
      set err : ℤ → ℚ := fun n => |(w : ℚ) / (h : ℚ) - (n : ℚ) / (bh : ℚ)| with herr
      set t : ℚ := (bh : ℚ) * ((w : ℚ) / (h : ℚ)) with hts
      have ht0 : 0 < t := by rw [hts]; positivity
      have hcross : (w : ℚ) * bh ≤ (bw : ℚ) * h := (div_le_div_iff hh0 hbh0).mp hbr
      have ht_bw : t ≤ (bw : ℚ) := by
        rw [hts, mul_div_assoc', div_le_iff hh0]
        nlinarith
      have hbh_h : bh ≤ h := by
        have hq : (bh : ℚ) ≤ (h : ℚ) := by
          rcases hcases with hc | hc
          · have hww : (bw : ℚ) < (w : ℚ) := by exact_mod_cast hc
            nlinarith
          · have := hc
            exact_mod_cast le_of_lt (show (bh : ℚ) < h by exact_mod_cast hc)
        exact_mod_cast hq
      have ht_w : t ≤ (w : ℚ) := by
        rw [hts, mul_div_assoc', div_le_iff hh0]
        have hq : (bh : ℚ) ≤ (h : ℚ) := by exact_mod_cast hbh_h
        nlinarith
      have hra1 : 1 ≤ round_aspect t err := round_aspect_ge_one t err
      have hra0 : (0 : ℤ) ≤ round_aspect t err := by omega
      have hra_bw : round_aspect t err ≤ (bw : ℤ) :=
        round_aspect_le t err bw (by exact_mod_cast hbw) (by push_cast; exact ht_bw)
      have hra_w : round_aspect t err ≤ (w : ℤ) :=
        round_aspect_le t err w (by exact_mod_cast hw) (by push_cast; exact ht_w)
      have hcast : (((round_aspect t err).toNat : ℕ) : ℚ) = ((round_aspect t err : ℤ) : ℚ) := by
        exact_mod_cast congrArg (fun z : ℤ => (z : ℚ)) (Int.toNat_of_nonneg hra0)
      refine ⟨by exact_mod_cast Int.toNat_le.mpr hra_bw, le_rfl,
        by exact_mod_cast Int.toNat_le.mpr hra_w, hbh_h, Or.inl ?_⟩
      have hnear := round_aspect_near t err ht0
      have htmul : t * h = (bh : ℚ) * w := by
        rw [hts]
        field_simp
      have hsplit : (((round_aspect t err).toNat : ℕ) : ℚ) * h - (bh : ℚ) * w
          = (((round_aspect t err : ℤ) : ℚ) - t) * h := by
        rw [hcast, sub_mul, htmul]
      rw [hsplit, abs_mul, abs_of_pos hh0]
      calc |((round_aspect t err : ℤ) : ℚ) - t| * h ≤ 1 * h := by
            exact mul_le_mul_of_nonneg_right hnear (le_of_lt hh0)
        _ = h := one_mul _
    · -- branch scaling to the box width
      have hres : thumbnail_size w h bw bh
          = (bw, (round_aspect ((bw : ℚ) / ((w : ℚ) / (h : ℚ)))
              (fun n => if n = 0 then 0 else |(w : ℚ) / (h : ℚ) - (bw : ℚ) / (n : ℚ)|)).toNat) := by
        unfold thumbnail_size
        rw [if_neg hfit, if_neg hbr]
      rw [hres]
      set err : ℤ → ℚ := fun n => if n = 0 then 0 else |(w : ℚ) / (h : ℚ) - (bw : ℚ) / (n : ℚ)|
        with herr
      set t : ℚ := (bw : ℚ) / ((w : ℚ) / (h : ℚ)) with hts
      have htt : t = ((bw : ℚ) * h) / w := by
        rw [hts, div_div_eq_mul_div]
      have ht0 : 0 < t := by rw [htt]; positivity
      have hcross : (bw : ℚ) * h < (w : ℚ) * bh := by
        have := not_le.mp hbr
        exact (div_lt_div_iff hbh0 hh0).mp this
      have ht_bh : t ≤ (bh : ℚ) := by
        rw [htt, div_le_iff hw0]
        nlinarith
      have hbw_w : bw ≤ w := by
        have hq : (bw : ℚ) ≤ (w : ℚ) := by
          rcases hcases with hc | hc
          · exact le_of_lt (by exact_mod_cast hc)
          · have hhh : (bh : ℚ) < (h : ℚ) := by exact_mod_cast hc
            nlinarith
        exact_mod_cast hq
      have ht_h : t ≤ (h : ℚ) := by
        rw [htt, div_le_iff hw0]
        have hq : (bw : ℚ) ≤ (w : ℚ) := by exact_mod_cast hbw_w
        nlinarith
      have hra1 : 1 ≤ round_aspect t err := round_aspect_ge_one t err
      have hra0 : (0 : ℤ) ≤ round_aspect t err := by omega
      have hra_bh : round_aspect t err ≤ (bh : ℤ) :=
        round_aspect_le t err bh (by exact_mod_cast hbh) (by push_cast; exact ht_bh)
      have hra_h : round_aspect t err ≤ (h : ℤ) :=
        round_aspect_le t err h (by exact_mod_cast hh) (by push_cast; exact ht_h)
      have hcast : (((round_aspect t err).toNat : ℕ) : ℚ) = ((round_aspect t err : ℤ) : ℚ) := by
        exact_mod_cast congrArg (fun z : ℤ => (z : ℚ)) (Int.toNat_of_nonneg hra0)
      refine ⟨le_rfl, by exact_mod_cast Int.toNat_le.mpr hra_bh, hbw_w,
        by exact_mod_cast Int.toNat_le.mpr hra_h, Or.inr ?_⟩
      have hnear := round_aspect_near t err ht0
      have htmul : t * w = (bw : ℚ) * h := by
        rw [htt]
        field_simp
      have hsplit : ((bw : ℕ) : ℚ) * h - (((round_aspect t err).toNat : ℕ) : ℚ) * w
          = (t - ((round_aspect t err : ℤ) : ℚ)) * w := by
        rw [hcast, sub_mul, htmul]
      rw [hsplit, abs_mul, abs_of_pos hw0, abs_sub_comm]
      calc |((round_aspect t err : ℤ) : ℚ) - t| * w ≤ 1 * w := by
            exact mul_le_mul_of_nonneg_right hnear (le_of_lt hw0)
        _ = w := one_mul _

/-- C4: for every decoded source raster and every size preset of
`download_and_process_image`, the resized derivative fits the preset's
bounding box, never exceeds the source's own width or height (no upscaling),
and preserves the source aspect ratio within one pixel of rounding; and the
function additionally produces one derivative fitting a (20, 20) box,
re-encoded at quality 20 and embedded behind the inline base64 data-url
header. -/
theorem C4_resize_contract (w h : Nat) (hw : 1 ≤ w) (hh : 1 ≤ h) :
    (∀ p ∈ size_presets,
        (thumbnail_size w h p.2.1 p.2.2).1 ≤ p.2.1
        ∧ (thumbnail_size w h p.2.1 p.2.2).2 ≤ p.2.2
        ∧ (thumbnail_size w h p.2.1 p.2.2).1 ≤ w
        ∧ (thumbnail_size w h p.2.1 p.2.2).2 ≤ h
        ∧ (|((thumbnail_size w h p.2.1 p.2.2).1 : ℚ) * h
              - ((thumbnail_size w h p.2.1 p.2.2).2 : ℚ) * w| ≤ h
           ∨ |((thumbnail_size w h p.2.1 p.2.2).1 : ℚ) * h
              - ((thumbnail_size w h p.2.1 p.2.2).2 : ℚ) * w| ≤ w))
    ∧ (make_blur_preview w h).dims.1 ≤ 20
    ∧ (make_blur_preview w h).dims.2 ≤ 20
    ∧ (make_blur_preview w h).quality = 20
    ∧ (make_blur_preview w h).dataUrlHeader = "data:image/jpeg;base64," := by
  refine ⟨?_, (thumbnail_size_spec w h 20 20 hw hh (by omega) (by omega)).1,
    (thumbnail_size_spec w h 20 20 hw hh (by omega) (by omega)).2.1, rfl, rfl⟩
  intro p hp
  have hp1 : 1 ≤ p.2.1 ∧ 1 ≤ p.2.2 := by
    simp only [size_presets, List.mem_cons, List.not_mem_nil, or_false] at hp
    rcases hp with hp | hp | hp <;> subst hp <;> exact ⟨by decide, by decide⟩
  exact thumbnail_size_spec w h p.2.1 p.2.2 hw hh hp1.1 hp1.2

/-- Witness for C4: a 1000 × 800 source — the blur preview fits 20 pixels and
is encoded at quality 20. -/
theorem C4_witness :
    (make_blur_preview 1000 800).dims.1 ≤ 20 ∧ (make_blur_preview 1000 800).quality = 20 :=
  ⟨(C4_resize_contract 1000 800 (by decide) (by decide)).2.1,
   (C4_resize_contract 1000 800 (by decide) (by decide)).2.2.2.1⟩

end ParkSphere
